import Mathlib

set_option maxRecDepth 100000

/-!
Verification of `molecule/driver/podman.py` (the `Podman` driver of the
`molecule` test orchestrator).

The Python source under scrutiny defines a class `Podman(docker.Docker)`
with four members:

  - `__init__(self, config)`: calls `super().__init__(config)` and then
    sets `self._name = 'podman'`;
  - `login_cmd_template(self)`: returns the literal string
    `podman exec -e COLUMNS={columns} -e LINES={lines} -e TERM=bash
    -e TERM=xterm -ti {instance} bash` (written in the source as five
    adjacent string literals, which Python concatenates);
  - `login_options(self, instance_name)`: returns the dict
    `{'instance': instance_name}`;
  - `ansible_connection_options(self, instance_name)`: returns `{}`.

All three methods are single `return` statements of literal expressions:
they make no calls, perform no I/O, mutate nothing and cannot raise, so
they are embedded as total Lean functions.  Python dicts with string keys
and values are embedded as association lists `List (String × String)`.

The template string is consumed by Python's `str.format` with keyword
arguments.  The fragment of `str.format` that is relevant here (simple
named replacement fields `{name}`, no conversions, no format specs, no
brace escapes — the template uses nothing else) is embedded below as
`pyFormat`: it scans the template, replaces each `{name}` by the value
bound to `name` in the argument map, and fails (returns `none`, the image
of Python's `KeyError` / `ValueError`) when a field names a missing key or
when the braces are malformed.
-/

namespace Molecule

/-- The left-brace character, written by code point to keep replacement
fields readable only inside string literals. -/
def lbrace : Char := Char.ofNat 123

/-- The right-brace character, written by code point. -/
def rbrace : Char := Char.ofNat 125

/-- Lookup of a key in an association list embedding a Python dict:
first binding wins (all dicts built here have distinct keys). -/
def lookupStr (k : String) : List (String × String) → Option String
  | [] => none
  | p :: rest => if p.1 = k then some p.2 else lookupStr k rest

/-- Core of the embedding of Python `str.format` restricted to simple
named fields.  The second argument is the remaining input; the third is
the scanner state: `none` outside a replacement field, `some acc` inside
one with `acc` the (reversed) characters of the field name read so far.
Failure (`none` result) models `KeyError` on a missing key and
`ValueError` on a stray or unterminated brace. -/
def fmtAux (m : List (String × String)) : List Char → Option (List Char) → Option (List Char)
  | [], st =>
    match st with
    | none => some []
    | some _ => none
  | c :: rest, st =>
    match st with
    | none =>
      if c = lbrace then fmtAux m rest (some [])
      else if c = rbrace then none
      else Option.map (fun t => c :: t) (fmtAux m rest none)
    | some acc =>
      if c = rbrace then
        match lookupStr (String.mk acc.reverse) m with
        | some v => Option.map (fun t => v.data ++ t) (fmtAux m rest none)
        | none => none
      else if c = lbrace then none
      else fmtAux m rest (some (c :: acc))

/-- Embedding of Python `template.format(**mapping)` for the fragment of
the format language used by the drivers. -/
def pyFormat (tpl : String) (m : List (String × String)) : Option String :=
  Option.map String.mk (fmtAux m tpl.data none)

/-- Names of the replacement fields of a template, in order of
occurrence, read by the same scanner as `fmtAux`. -/
def phAux : List Char → Option (List Char) → List String
  | [], _ => []
  | c :: rest, st =>
    match st with
    | none => if c = lbrace then phAux rest (some []) else phAux rest none
    | some acc =>
      if c = rbrace then String.mk acc.reverse :: phAux rest none
      else phAux rest (some (c :: acc))

/-- The replacement-field names (placeholders) of a template string. -/
def placeholders (tpl : String) : List String := phAux tpl.data none

/-- Well-formedness of a template for the scanner: every replacement
field opened is closed, no stray closing brace, no nested opening brace.
The Boolean argument is `true` when scanning inside a field. -/
def wfAux : List Char → Bool → Bool
  | [], inside => !inside
  | c :: rest, inside =>
    if inside then
      if c = rbrace then wfAux rest false
      else if c = lbrace then false
      else wfAux rest true
    else
      if c = lbrace then wfAux rest true
      else if c = rbrace then false
      else wfAux rest false

/-- Number of occurrences of `pat` as a contiguous substring of `s`,
counted by starting position. -/
def countOcc (pat : List Char) (s : List Char) : Nat :=
  ((List.range (s.length + 1)).filter (fun i => pat.isPrefixOf (s.drop i))).length

/-- Whether `pat` occurs as a contiguous substring of `s`. -/
def containsSub (pat : List Char) (s : List Char) : Bool :=
  (List.range (s.length + 1)).any (fun i => pat.isPrefixOf (s.drop i))

namespace Podman

/-- Embedding of `Podman.login_cmd_template` (podman.py lines 143-149):
the five adjacent Python string literals, concatenated as Python does. -/
def login_cmd_template : String :=
  "podman exec " ++
  "-e COLUMNS={columns} " ++
  "-e LINES={lines} " ++
  "-e TERM=bash " ++
  "-e TERM=xterm " ++
  "-ti {instance} bash"

/-- Embedding of `Podman.login_options` (podman.py lines 151-152):
returns the one-entry dict binding `instance` to the argument. -/
def login_options (instance_name : String) : List (String × String) :=
  [("instance", instance_name)]

/-- Embedding of `Podman.ansible_connection_options` (podman.py lines
154-160): returns the empty dict, ignoring the argument. -/
def ansible_connection_options (_instance_name : String) : List (String × String) :=
  []

end Podman

/-- Modelled from the spec: the Docker base driver
(`molecule/driver/docker.py`) is not part of the sources under
verification; only its subclass `Podman` is.  Per spec sections 4.2 and
4.3 the base driver supplies the full lifecycle operation set (create,
start, stop, destroy, build, network/volume/port wiring) besides the
three login/connection methods and the driver name.  This record
abstracts that surface: the lifecycle fields have an arbitrary behaviour
type `β`, since their implementation is external; the three
login/connection fields have the concrete types of the embedding above.
Python attribute lookup on a `Podman` object resolves a method in the
subclass when it overrides it and in `docker.Docker` otherwise, which the
record-update model below reproduces field by field. -/
structure DriverOps (β : Type) where
  name : String
  create : β
  start : β
  stop : β
  destroy : β
  build : β
  network_wiring : β
  volume_wiring : β
  port_wiring : β
  login_cmd_template : String
  login_options : String → List (String × String)
  ansible_connection_options : String → List (String × String)

/-- Embedding of the class declaration `class Podman(docker.Docker)`
(podman.py lines 32-160): given the Docker base driver's operation table
`d`, the Podman driver's table is `d` with exactly the three overridden
methods replaced by the Podman bodies and the name set to `podman`; every
other operation resolves to the base table unchanged. -/
def podmanDriver {β : Type} (d : DriverOps β) : DriverOps β :=
  { d with
    name := "podman"
    login_cmd_template := Podman.login_cmd_template
    login_options := Podman.login_options
    ansible_connection_options := Podman.ansible_connection_options }

/-- Modelled from the spec: the object state produced by the Docker
driver's `__init__` (in `molecule/driver/docker.py`, not among the
sources under verification).  Spec section 3 records that a driver owns a
name and a reference to the scenario config plus further backend state;
only the `_name` attribute is touched by the Podman constructor, so the
rest of the state is abstracted into a single field of arbitrary type. -/
structure DriverSt (ρ : Type) where
  _name : String
  rest : ρ

/-- Embedding of `Podman.__init__` (podman.py lines 139-141): run the
Docker initializer `dockerInit` on the config, then overwrite the `_name`
attribute with `podman`, leaving every other attribute as the Docker
initializer produced it. -/
def podmanInit {σ ρ : Type} (dockerInit : σ → DriverSt ρ) (config : σ) : DriverSt ρ :=
  { dockerInit config with _name := "podman" }

/-- Helper: the scanner `fmtAux` succeeds on a well-formed template whose
replacement-field names are all bound in the argument map. -/
theorem fmtAux_isSome (m : List (String × String)) :
    ∀ (s : List Char) (st : Option (List Char)),
      wfAux s st.isSome = true →
      (∀ p ∈ phAux s st, (lookupStr p m).isSome = true) →
      (fmtAux m s st).isSome = true := by
  intro s
  induction s with
  | nil =>
    intro st hwf _
    cases st with
    | none => simp [fmtAux]
    | some acc => simp [wfAux] at hwf
  | cons c rest ih =>
    intro st hwf hph
    cases st with
    | none =>
      simp only [Option.isSome_none] at hwf
      rw [wfAux] at hwf
      rw [phAux] at hph
      rw [fmtAux]
      simp only [Bool.false_eq_true, if_false] at hwf
      by_cases h1 : c = lbrace
      · rw [if_pos h1] at hwf hph ⊢
        exact ih (some []) hwf hph
      · by_cases h2 : c = rbrace
        · rw [if_neg h1, if_pos h2] at hwf
          exact absurd hwf (by simp)
        · rw [if_neg h1] at hwf hph ⊢
          rw [if_neg h2] at hwf ⊢
          obtain ⟨t, ht⟩ := Option.isSome_iff_exists.mp (ih none hwf hph)
          rw [ht]
          rfl
    | some acc =>
      simp only [Option.isSome_some] at hwf
      rw [wfAux] at hwf
      rw [phAux] at hph
      rw [fmtAux]
      simp only [if_true] at hwf
      by_cases h2 : c = rbrace
      · rw [if_pos h2] at hwf hph ⊢
        have hk : (lookupStr (String.mk acc.reverse) m).isSome = true :=
          hph (String.mk acc.reverse) (List.mem_cons_self _ _)
        obtain ⟨v, hv⟩ := Option.isSome_iff_exists.mp hk
        rw [hv]
        show (Option.map (fun t => v.data ++ t) (fmtAux m rest none)).isSome = true
        have hrest : (fmtAux m rest none).isSome = true := by
          refine ih none hwf ?_
          intro p hp
          exact hph p (List.mem_cons_of_mem _ hp)
        obtain ⟨t, ht⟩ := Option.isSome_iff_exists.mp hrest
        rw [ht]
        rfl
      · by_cases h1 : c = lbrace
        · rw [if_neg h2, if_pos h1] at hwf
          exact absurd hwf (by simp)
        · rw [if_neg h2] at hwf hph ⊢
          rw [if_neg h1] at hwf ⊢
          exact ih (some (c :: acc)) hwf hph

/-- C1: for the Podman driver, `login_cmd_template()` begins with
`podman exec` and contains `-ti` followed by the instance field and
`bash`; formatting it with instance `my_instance`, columns `80` and lines
`24` yields exactly the command line of the spec, and in that command
line `TERM` is assigned twice, first to `bash` and then to `xterm`. -/
theorem podman_login_cmd_template_correct :
    ("podman exec".data.isPrefixOf Podman.login_cmd_template.data = true) ∧
    (containsSub "-ti {instance} bash".data Podman.login_cmd_template.data = true) ∧
    (pyFormat Podman.login_cmd_template
        [("instance", "my_instance"), ("columns", "80"), ("lines", "24")]
      = some "podman exec -e COLUMNS=80 -e LINES=24 -e TERM=bash -e TERM=xterm -ti my_instance bash") ∧
    (countOcc "-e TERM=".data
        "podman exec -e COLUMNS=80 -e LINES=24 -e TERM=bash -e TERM=xterm -ti my_instance bash".data
      = 2) ∧
    (∃ s1 s2 s3 : List Char,
      "podman exec -e COLUMNS=80 -e LINES=24 -e TERM=bash -e TERM=xterm -ti my_instance bash".data
        = s1 ++ "-e TERM=bash".data ++ s2 ++ "-e TERM=xterm".data ++ s3) := by
  refine ⟨by decide, by decide, by decide, by decide,
    "podman exec -e COLUMNS=80 -e LINES=24 ".data, " ".data,
    " -ti my_instance bash".data, by decide⟩

/-- C2: for every instance name, `login_options` of the Podman driver is
exactly the one-entry mapping binding `instance` to that name; its key
set is exactly the singleton `instance` (so no columns or lines keys). -/
theorem podman_login_options_correct (instance_name : String) :
    Podman.login_options instance_name = [("instance", instance_name)] ∧
    (Podman.login_options instance_name).map Prod.fst = ["instance"] :=
  ⟨rfl, rfl⟩

/-- C3: for every instance name, `ansible_connection_options` of the
Podman driver is the empty mapping, independently of the argument. -/
theorem podman_ansible_connection_options_empty (instance_name : String) :
    Podman.ansible_connection_options instance_name = [] := rfl

/-- C4: formatting the Podman driver's `login_cmd_template` with
`login_options x` merged with bindings for `columns` and `lines` succeeds
for every non-empty instance name and positive geometry: every
replacement field of the template is resolved (`pyFormat` returns `some`,
never the `none` that models an unresolved field). -/
theorem podman_login_roundtrip (x : String) (hx : x ≠ "") (c l : Nat)
    (hc : 0 < c) (hl : 0 < l) :
    ∃ out : String,
      pyFormat Podman.login_cmd_template
        (Podman.login_options x ++ [("columns", toString c), ("lines", toString l)])
        = some out := by
  have hwf : wfAux Podman.login_cmd_template.data (Option.isSome (none : Option (List Char))) = true := by
    decide
  have hph : ∀ p ∈ phAux Podman.login_cmd_template.data none,
      (lookupStr p (Podman.login_options x ++ [("columns", toString c), ("lines", toString l)])).isSome = true := by
    intro p hp
    have e : phAux Podman.login_cmd_template.data none = ["columns", "lines", "instance"] := by
      decide
    rw [e] at hp
    simp only [List.mem_cons, List.not_mem_nil, or_false] at hp
    rcases hp with h | h | h <;> subst h <;> simp [Podman.login_options, lookupStr]
  have h := fmtAux_isSome _ Podman.login_cmd_template.data none hwf hph
  obtain ⟨o, ho⟩ := Option.isSome_iff_exists.mp h
  exact ⟨String.mk o, by rw [pyFormat, ho]; rfl⟩

/-- Witness for C4 at `x = web1`, `c = 80`, `l = 24`. -/
theorem podman_login_roundtrip_witness :
    ("web1" : String) ≠ "" ∧ 0 < 80 ∧ 0 < 24 ∧
    ∃ out : String,
      pyFormat Podman.login_cmd_template
        (Podman.login_options "web1" ++ [("columns", toString 80), ("lines", toString 24)])
        = some out :=
  ⟨by decide, by decide, by decide,
    podman_login_roundtrip "web1" (by decide) 80 24 (by decide) (by decide)⟩

/-- C5, counterexample: `columns` is a replacement field of the Podman
`login_cmd_template`, yet it is not among the keys returned by
`login_options "web1"`, so the template's placeholder set is neither
equal to nor a subset of the `login_options` key set. -/
theorem podman_placeholder_keys_counterexample :
    "columns" ∈ placeholders Podman.login_cmd_template ∧
    "columns" ∉ (Podman.login_options "web1").map Prod.fst := by
  constructor
  · decide
  · decide

/-- C5, amended: every replacement field of the Podman
`login_cmd_template` is among the keys of `login_options instance_name`
extended with the caller-supplied geometry keys `columns` and `lines`. -/
theorem podman_placeholder_keys_amended (instance_name : String) (p : String)
    (hp : p ∈ placeholders Podman.login_cmd_template) :
    p ∈ (Podman.login_options instance_name).map Prod.fst ++ ["columns", "lines"] := by
  have e : placeholders Podman.login_cmd_template = ["columns", "lines", "instance"] := by
    decide
  rw [e] at hp
  simp only [List.mem_cons, List.not_mem_nil, or_false] at hp
  rcases hp with h | h | h <;> subst h <;> simp [Podman.login_options]

/-- Witness for the amended C5 at `instance_name = web1`, `p = columns`. -/
theorem podman_placeholder_keys_amended_witness :
    "columns" ∈ (Podman.login_options "web1").map Prod.fst ++ ["columns", "lines"] :=
  podman_placeholder_keys_amended "web1" "columns" (by decide)

/-- C6: the replacement fields of the Podman `login_cmd_template`, in
order of occurrence, are exactly `columns`, `lines` and `instance` — no
other field occurs. -/
theorem podman_template_placeholders_exact :
    placeholders Podman.login_cmd_template = ["columns", "lines", "instance"] := by
  decide

/-- C7: the three Podman methods are embedded as total Lean functions —
faithful because each Python body is a single `return` of a literal
expression with no calls, no I/O, no mutation and no raise — and each
result is the same explicit value on every call: `login_cmd_template` is
a fixed string and the two mappings depend only on the argument, so two
runs with equal arguments return equal results. -/
theorem podman_methods_pure (instance_name : String) :
    Podman.login_cmd_template =
      "podman exec -e COLUMNS={columns} -e LINES={lines} -e TERM=bash -e TERM=xterm -ti {instance} bash" ∧
    Podman.login_options instance_name = [("instance", instance_name)] ∧
    Podman.ansible_connection_options instance_name = [] := by
  refine ⟨by decide, rfl, rfl⟩

/-- C8: the Podman driver's operation table is the Docker base table with
exactly the three login/connection methods overridden and the name set to
`podman`; every lifecycle operation (create, start, stop, destroy, build,
network/volume/port wiring) is the Docker behaviour, inherited
unmodified, for every Docker base table. -/
theorem podman_inherits_docker_lifecycle (β : Type) (d : DriverOps β) :
    (podmanDriver d).create = d.create ∧
    (podmanDriver d).start = d.start ∧
    (podmanDriver d).stop = d.stop ∧
    (podmanDriver d).destroy = d.destroy ∧
    (podmanDriver d).build = d.build ∧
    (podmanDriver d).network_wiring = d.network_wiring ∧
    (podmanDriver d).volume_wiring = d.volume_wiring ∧
    (podmanDriver d).port_wiring = d.port_wiring ∧
    (podmanDriver d).login_cmd_template = Podman.login_cmd_template ∧
    (podmanDriver d).login_options = Podman.login_options ∧
    (podmanDriver d).ansible_connection_options = Podman.ansible_connection_options ∧
    (podmanDriver d).name = "podman" :=
  ⟨rfl, rfl, rfl, rfl, rfl, rfl, rfl, rfl, rfl, rfl, rfl, rfl⟩

/-- C9: for every config and every Docker initializer, the Podman
constructor produces the Docker-initialized state with only the `_name`
attribute changed, to `podman`; the rest of the state is exactly what the
Docker initializer produced. -/
theorem podman_init_frame (σ ρ : Type) (dockerInit : σ → DriverSt ρ) (config : σ) :
    (podmanInit dockerInit config)._name = "podman" ∧
    (podmanInit dockerInit config).rest = (dockerInit config).rest :=
  ⟨rfl, rfl⟩

/-- C10: the two option methods of the Podman driver are total on the
empty instance name as well: `login_options` of the empty string is the
one-entry mapping binding `instance` to the empty string, and
`ansible_connection_options` of the empty string is the empty mapping —
no error value arises (the embedding is a total function). -/
theorem podman_methods_total_on_empty_name :
    Podman.login_options "" = [("instance", "")] ∧
    Podman.ansible_connection_options "" = [] :=
  ⟨rfl, rfl⟩

end Molecule
